import Mathlib

/-!
# bun-ndarray: the C ABI header `native/include/ndarray.h`

A shallow embedding of the ABI header (typedefs, enumerations and the `ND_API`
function declarations) together with models of the engine components whose
implementation lives behind the header (broadcasting, handle table, job registry).
-/

namespace NdArray

/-! ## C types of the header -/

/-- The C types that occur in `ndarray.h`. `named` is a typedef name,
`ptr` a pointer to a mutable object, `constPtr` a pointer to a const object. -/
inductive CType where
  | void
  | char
  | double
  | uint8_t
  | int32_t
  | uint32_t
  | int64_t
  | uint64_t
  | named (n : String)
  | ptr (t : CType)
  | constPtr (t : CType)
  deriving DecidableEq, Repr

/-- The typedef table, `ndarray.h` lines 13-17. -/
def typedefs : List (String × CType) :=
  [ ("nd_status_t", CType.int32_t),
    ("nd_handle_t", CType.uint64_t),
    ("nd_dtype_t", CType.uint32_t),
    ("nd_flags_t", CType.uint32_t),
    ("nd_bool_t", CType.uint32_t) ]

/-- Look a typedef name up in a table. -/
def lookupTypedef : List (String × CType) → String → Option CType
  | [], _ => none
  | (k, v) :: rest, n => if k = n then some v else lookupTypedef rest n

/-- Expand typedef names (one level suffices: the header's typedefs are all
aliases of `<stdint.h>` types). -/
def CType.resolve : CType → CType
  | CType.named n => (lookupTypedef typedefs n).getD (CType.named n)
  | CType.ptr t => CType.ptr t.resolve
  | CType.constPtr t => CType.constPtr t.resolve
  | t => t

/-- Width in bits of a fixed-width integer type. -/
def CType.intBits : CType → Option Nat
  | CType.uint8_t => some 8
  | CType.int32_t => some 32
  | CType.uint32_t => some 32
  | CType.int64_t => some 64
  | CType.uint64_t => some 64
  | _ => none

/-- Signedness of a fixed-width integer type. -/
def CType.isSigned : CType → Option Bool
  | CType.uint8_t => some false
  | CType.int32_t => some true
  | CType.uint32_t => some false
  | CType.int64_t => some true
  | CType.uint64_t => some false
  | _ => none

def nd_status_t : CType := CType.named "nd_status_t"
def nd_handle_t : CType := CType.named "nd_handle_t"
def nd_dtype_t : CType := CType.named "nd_dtype_t"
def nd_flags_t : CType := CType.named "nd_flags_t"
def nd_bool_t : CType := CType.named "nd_bool_t"

/-! ## Enumerations -/

def ND_OK : Int := 0
def ND_E_INVALID_ARG : Int := 1
def ND_E_INVALID_DTYPE : Int := 2
def ND_E_INVALID_SHAPE : Int := 3
def ND_E_INVALID_STRIDES : Int := 4
def ND_E_INVALID_ALIGNMENT : Int := 5
def ND_E_STALE_HANDLE : Int := 6
def ND_E_OOM : Int := 7
def ND_E_NOT_CONTIGUOUS : Int := 8
def ND_E_NOT_IMPLEMENTED : Int := 9
def ND_E_INTERNAL : Int := 255

/-- The first anonymous enum (lines 19-31): the status codes, in order. -/
def statusEnum : List (String × Int) :=
  [ ("ND_OK", ND_OK),
    ("ND_E_INVALID_ARG", ND_E_INVALID_ARG),
    ("ND_E_INVALID_DTYPE", ND_E_INVALID_DTYPE),
    ("ND_E_INVALID_SHAPE", ND_E_INVALID_SHAPE),
    ("ND_E_INVALID_STRIDES", ND_E_INVALID_STRIDES),
    ("ND_E_INVALID_ALIGNMENT", ND_E_INVALID_ALIGNMENT),
    ("ND_E_STALE_HANDLE", ND_E_STALE_HANDLE),
    ("ND_E_OOM", ND_E_OOM),
    ("ND_E_NOT_CONTIGUOUS", ND_E_NOT_CONTIGUOUS),
    ("ND_E_NOT_IMPLEMENTED", ND_E_NOT_IMPLEMENTED),
    ("ND_E_INTERNAL", ND_E_INTERNAL) ]

def ND_DTYPE_F32 : Nat := 1
def ND_DTYPE_I32 : Nat := 3
def ND_DTYPE_F64 : Nat := 4

/-- The second anonymous enum (lines 33-37): the dtype codes. -/
def dtypeEnum : List (String × Nat) :=
  [ ("ND_DTYPE_F32", ND_DTYPE_F32),
    ("ND_DTYPE_I32", ND_DTYPE_I32),
    ("ND_DTYPE_F64", ND_DTYPE_F64) ]

def ND_BOOL_FALSE : Nat := 0
def ND_BOOL_TRUE : Nat := 1

/-- The third anonymous enum (lines 39-42). -/
def boolEnum : List (String × Nat) :=
  [ ("ND_BOOL_FALSE", ND_BOOL_FALSE), ("ND_BOOL_TRUE", ND_BOOL_TRUE) ]

/-- The C expression `a << b` on `unsigned int` (32 bits). -/
def shlU32 (a b : Nat) : Nat := (a <<< b) % 2 ^ 32

/-- `ND_FLAG_READONLY = 1u << 0`. -/
def ND_FLAG_READONLY : Nat := shlU32 1 0

/-- The fourth anonymous enum (lines 44-46): the flag bits. -/
def flagEnum : List (String × Nat) :=
  [ ("ND_FLAG_READONLY", ND_FLAG_READONLY) ]

/-- True when an enumerator name is an `ND_E_*` name. -/
def isErrorName (n : String) : Bool := n.toList.take 5 == ['N', 'D', '_', 'E', '_']

/-- The `ND_E_*` enumerators of the status enum. -/
def errorCodes : List (String × Int) := statusEnum.filter (fun e => isErrorName e.1)

/-- Conversion of an `int` value to the signed 32-bit `nd_status_t`
(two's-complement wrap). -/
def toInt32 (v : Int) : Int := (v + 2 ^ 31) % 2 ^ 32 - 2 ^ 31

/-! ## Function declarations -/

/-- A parameter of a function declaration: its type and its name. -/
structure Param where
  ty : CType
  name : String
  deriving DecidableEq, Repr

/-- An `ND_API` function declaration: return type, name, parameters. -/
structure FnDecl where
  ret : CType
  name : String
  params : List Param
  deriving DecidableEq, Repr

def nd_abi_version_decl : FnDecl :=
  ⟨CType.uint32_t, "nd_abi_version", []⟩

def nd_build_version_cstr_decl : FnDecl :=
  ⟨CType.constPtr CType.char, "nd_build_version_cstr", []⟩

def nd_last_error_code_decl : FnDecl :=
  ⟨nd_status_t, "nd_last_error_code", []⟩

def nd_last_error_message_decl : FnDecl :=
  ⟨nd_status_t, "nd_last_error_message",
    [ ⟨CType.ptr CType.uint8_t, "out_utf8"⟩,
      ⟨CType.uint64_t, "cap"⟩,
      ⟨CType.ptr CType.uint64_t, "out_len"⟩ ]⟩

def nd_array_alloc_decl : FnDecl :=
  ⟨nd_status_t, "nd_array_alloc",
    [ ⟨nd_dtype_t, "dtype"⟩,
      ⟨CType.constPtr CType.int64_t, "shape"⟩,
      ⟨CType.uint8_t, "ndim"⟩,
      ⟨nd_flags_t, "flags"⟩,
      ⟨CType.ptr nd_handle_t, "out_handle"⟩ ]⟩

def nd_array_from_host_copy_decl : FnDecl :=
  ⟨nd_status_t, "nd_array_from_host_copy",
    [ ⟨CType.constPtr CType.uint8_t, "data"⟩,
      ⟨nd_dtype_t, "dtype"⟩,
      ⟨CType.constPtr CType.int64_t, "shape"⟩,
      ⟨CType.constPtr CType.int64_t, "strides_or_null"⟩,
      ⟨CType.uint8_t, "ndim"⟩,
      ⟨nd_flags_t, "flags"⟩,
      ⟨CType.ptr nd_handle_t, "out_handle"⟩ ]⟩

def nd_array_retain_decl : FnDecl :=
  ⟨nd_status_t, "nd_array_retain",
    [ ⟨nd_handle_t, "h"⟩ ]⟩

def nd_array_release_decl : FnDecl :=
  ⟨nd_status_t, "nd_array_release",
    [ ⟨nd_handle_t, "h"⟩ ]⟩

def nd_array_clone_decl : FnDecl :=
  ⟨nd_status_t, "nd_array_clone",
    [ ⟨nd_handle_t, "h"⟩,
      ⟨CType.ptr nd_handle_t, "out_handle"⟩ ]⟩

def nd_array_make_contiguous_decl : FnDecl :=
  ⟨nd_status_t, "nd_array_make_contiguous",
    [ ⟨nd_handle_t, "h"⟩,
      ⟨CType.ptr nd_handle_t, "out_handle"⟩ ]⟩

def nd_array_ndim_decl : FnDecl :=
  ⟨nd_status_t, "nd_array_ndim",
    [ ⟨nd_handle_t, "h"⟩,
      ⟨CType.ptr CType.uint8_t, "out_ndim"⟩ ]⟩

def nd_array_shape_copy_decl : FnDecl :=
  ⟨nd_status_t, "nd_array_shape_copy",
    [ ⟨nd_handle_t, "h"⟩,
      ⟨CType.ptr CType.int64_t, "out_shape"⟩,
      ⟨CType.uint8_t, "cap"⟩ ]⟩

def nd_array_strides_copy_decl : FnDecl :=
  ⟨nd_status_t, "nd_array_strides_copy",
    [ ⟨nd_handle_t, "h"⟩,
      ⟨CType.ptr CType.int64_t, "out_strides"⟩,
      ⟨CType.uint8_t, "cap"⟩ ]⟩

def nd_array_dtype_decl : FnDecl :=
  ⟨nd_status_t, "nd_array_dtype",
    [ ⟨nd_handle_t, "h"⟩,
      ⟨CType.ptr nd_dtype_t, "out_dtype"⟩ ]⟩

def nd_array_elem_count_decl : FnDecl :=
  ⟨nd_status_t, "nd_array_elem_count",
    [ ⟨nd_handle_t, "h"⟩,
      ⟨CType.ptr CType.uint64_t, "out_len"⟩ ]⟩

def nd_array_byte_len_decl : FnDecl :=
  ⟨nd_status_t, "nd_array_byte_len",
    [ ⟨nd_handle_t, "h"⟩,
      ⟨CType.ptr CType.uint64_t, "out_len"⟩ ]⟩

def nd_array_is_contiguous_decl : FnDecl :=
  ⟨nd_status_t, "nd_array_is_contiguous",
    [ ⟨nd_handle_t, "h"⟩,
      ⟨CType.ptr nd_bool_t, "out_bool"⟩ ]⟩

def nd_array_reshape_decl : FnDecl :=
  ⟨nd_status_t, "nd_array_reshape",
    [ ⟨nd_handle_t, "h"⟩,
      ⟨CType.constPtr CType.int64_t, "shape"⟩,
      ⟨CType.uint8_t, "ndim"⟩,
      ⟨CType.ptr nd_handle_t, "out_handle"⟩ ]⟩

def nd_array_transpose_decl : FnDecl :=
  ⟨nd_status_t, "nd_array_transpose",
    [ ⟨nd_handle_t, "h"⟩,
      ⟨CType.constPtr CType.int64_t, "perm_or_null"⟩,
      ⟨CType.uint8_t, "ndim"⟩,
      ⟨CType.ptr nd_handle_t, "out_handle"⟩ ]⟩

def nd_array_slice_decl : FnDecl :=
  ⟨nd_status_t, "nd_array_slice",
    [ ⟨nd_handle_t, "h"⟩,
      ⟨CType.constPtr CType.int64_t, "starts_or_null"⟩,
      ⟨CType.constPtr CType.int64_t, "stops_or_null"⟩,
      ⟨CType.constPtr CType.int64_t, "steps_or_null"⟩,
      ⟨CType.uint8_t, "ndim"⟩,
      ⟨CType.ptr nd_handle_t, "out_handle"⟩ ]⟩

def nd_array_export_bytes_decl : FnDecl :=
  ⟨nd_status_t, "nd_array_export_bytes",
    [ ⟨nd_handle_t, "h"⟩,
      ⟨CType.ptr CType.uint64_t, "out4"⟩ ]⟩

def nd_add_decl : FnDecl :=
  ⟨nd_status_t, "nd_add",
    [ ⟨nd_handle_t, "a"⟩,
      ⟨nd_handle_t, "b"⟩,
      ⟨CType.ptr nd_handle_t, "out_handle"⟩ ]⟩

def nd_sub_decl : FnDecl :=
  ⟨nd_status_t, "nd_sub",
    [ ⟨nd_handle_t, "a"⟩,
      ⟨nd_handle_t, "b"⟩,
      ⟨CType.ptr nd_handle_t, "out_handle"⟩ ]⟩

def nd_mul_decl : FnDecl :=
  ⟨nd_status_t, "nd_mul",
    [ ⟨nd_handle_t, "a"⟩,
      ⟨nd_handle_t, "b"⟩,
      ⟨CType.ptr nd_handle_t, "out_handle"⟩ ]⟩

def nd_div_decl : FnDecl :=
  ⟨nd_status_t, "nd_div",
    [ ⟨nd_handle_t, "a"⟩,
      ⟨nd_handle_t, "b"⟩,
      ⟨CType.ptr nd_handle_t, "out_handle"⟩ ]⟩

def nd_eq_decl : FnDecl :=
  ⟨nd_status_t, "nd_eq",
    [ ⟨nd_handle_t, "a"⟩,
      ⟨nd_handle_t, "b"⟩,
      ⟨CType.ptr nd_handle_t, "out_handle"⟩ ]⟩

def nd_lt_decl : FnDecl :=
  ⟨nd_status_t, "nd_lt",
    [ ⟨nd_handle_t, "a"⟩,
      ⟨nd_handle_t, "b"⟩,
      ⟨CType.ptr nd_handle_t, "out_handle"⟩ ]⟩

def nd_gt_decl : FnDecl :=
  ⟨nd_status_t, "nd_gt",
    [ ⟨nd_handle_t, "a"⟩,
      ⟨nd_handle_t, "b"⟩,
      ⟨CType.ptr nd_handle_t, "out_handle"⟩ ]⟩

def nd_where_decl : FnDecl :=
  ⟨nd_status_t, "nd_where",
    [ ⟨nd_handle_t, "cond"⟩,
      ⟨nd_handle_t, "x"⟩,
      ⟨nd_handle_t, "y"⟩,
      ⟨CType.ptr nd_handle_t, "out_handle"⟩ ]⟩

def nd_sum_all_decl : FnDecl :=
  ⟨nd_status_t, "nd_sum_all",
    [ ⟨nd_handle_t, "a"⟩,
      ⟨CType.ptr nd_handle_t, "out_handle"⟩ ]⟩

def nd_sum_axis_decl : FnDecl :=
  ⟨nd_status_t, "nd_sum_axis",
    [ ⟨nd_handle_t, "a"⟩,
      ⟨CType.int32_t, "axis"⟩,
      ⟨CType.ptr nd_handle_t, "out_handle"⟩ ]⟩

def nd_matmul_decl : FnDecl :=
  ⟨nd_status_t, "nd_matmul",
    [ ⟨nd_handle_t, "a"⟩,
      ⟨nd_handle_t, "b"⟩,
      ⟨CType.ptr nd_handle_t, "out_handle"⟩ ]⟩

def nd_job_submit_matmul_decl : FnDecl :=
  ⟨nd_status_t, "nd_job_submit_matmul",
    [ ⟨nd_handle_t, "a"⟩,
      ⟨nd_handle_t, "b"⟩,
      ⟨CType.ptr CType.uint64_t, "out_job_id"⟩ ]⟩

def nd_job_poll_decl : FnDecl :=
  ⟨nd_status_t, "nd_job_poll",
    [ ⟨CType.uint64_t, "job_id"⟩,
      ⟨CType.ptr CType.uint32_t, "out_state"⟩,
      ⟨CType.ptr nd_status_t, "out_result_status"⟩ ]⟩

def nd_job_take_result_decl : FnDecl :=
  ⟨nd_status_t, "nd_job_take_result",
    [ ⟨CType.uint64_t, "job_id"⟩,
      ⟨CType.ptr nd_handle_t, "out_handle"⟩ ]⟩

def nd_job_cancel_decl : FnDecl :=
  ⟨nd_status_t, "nd_job_cancel",
    [ ⟨CType.uint64_t, "job_id"⟩ ]⟩

def nd_add_into_decl : FnDecl :=
  ⟨nd_status_t, "nd_add_into",
    [ ⟨nd_handle_t, "a"⟩,
      ⟨nd_handle_t, "b"⟩,
      ⟨nd_handle_t, "out_handle"⟩ ]⟩

def nd_array_data_ptr_decl : FnDecl :=
  ⟨CType.ptr CType.uint8_t, "nd_array_data_ptr",
    [ ⟨nd_handle_t, "h"⟩ ]⟩

def nd_array_len_decl : FnDecl :=
  ⟨nd_status_t, "nd_array_len",
    [ ⟨nd_handle_t, "h"⟩,
      ⟨CType.ptr CType.uint64_t, "out_len"⟩ ]⟩

def nd_simd_width_f64_decl : FnDecl :=
  ⟨CType.uint64_t, "nd_simd_width_f64", []⟩

def nd_simd_add_f64_raw_decl : FnDecl :=
  ⟨nd_status_t, "nd_simd_add_f64_raw",
    [ ⟨CType.constPtr CType.double, "a"⟩,
      ⟨CType.constPtr CType.double, "b"⟩,
      ⟨CType.ptr CType.double, "out"⟩,
      ⟨CType.uint64_t, "len"⟩ ]⟩

def nd_simd_sum_f64_raw_decl : FnDecl :=
  ⟨nd_status_t, "nd_simd_sum_f64_raw",
    [ ⟨CType.constPtr CType.double, "data"⟩,
      ⟨CType.uint64_t, "len"⟩,
      ⟨CType.ptr CType.double, "out_sum"⟩ ]⟩

/-- Every `ND_API` declaration of the header, in source order (lines 48-134). -/
def ndApiDecls : List FnDecl :=
  [ nd_abi_version_decl,
    nd_build_version_cstr_decl,
    nd_last_error_code_decl,
    nd_last_error_message_decl,
    nd_array_alloc_decl,
    nd_array_from_host_copy_decl,
    nd_array_retain_decl,
    nd_array_release_decl,
    nd_array_clone_decl,
    nd_array_make_contiguous_decl,
    nd_array_ndim_decl,
    nd_array_shape_copy_decl,
    nd_array_strides_copy_decl,
    nd_array_dtype_decl,
    nd_array_elem_count_decl,
    nd_array_byte_len_decl,
    nd_array_is_contiguous_decl,
    nd_array_reshape_decl,
    nd_array_transpose_decl,
    nd_array_slice_decl,
    nd_array_export_bytes_decl,
    nd_add_decl,
    nd_sub_decl,
    nd_mul_decl,
    nd_div_decl,
    nd_eq_decl,
    nd_lt_decl,
    nd_gt_decl,
    nd_where_decl,
    nd_sum_all_decl,
    nd_sum_axis_decl,
    nd_matmul_decl,
    nd_job_submit_matmul_decl,
    nd_job_poll_decl,
    nd_job_take_result_decl,
    nd_job_cancel_decl,
    nd_add_into_decl,
    nd_array_data_ptr_decl,
    nd_array_len_decl,
    nd_simd_width_f64_decl,
    nd_simd_add_f64_raw_decl,
    nd_simd_sum_f64_raw_decl ]

/-- The parameter of a declaration with a given name, if any. -/
def FnDecl.param (d : FnDecl) (n : String) : Option Param :=
  d.params.find? (fun p => p.name == n)

/-- The names of the parameters that carry a shape, strides, permutation or
slice-bound array in the five entry points that take one. -/
def extentArrayParams : List String :=
  [ "shape", "strides_or_null", "perm_or_null",
    "starts_or_null", "stops_or_null", "steps_or_null" ]

/-- The entry points that take a shape, strides, permutation or slice-bound array. -/
def extentArrayDecls : List FnDecl :=
  [ nd_array_alloc_decl, nd_array_from_host_copy_decl, nd_array_reshape_decl,
    nd_array_transpose_decl, nd_array_slice_decl ]

/-- True when a declaration has a parameter of type pointer-to-const `int64_t`. -/
def takesInt64Array (d : FnDecl) : Bool :=
  d.params.any (fun p => p.ty == CType.constPtr CType.int64_t)

/-! ## Broadcasting (spec section 4.1, kernel preamble of section 4.3)

The header only declares `nd_add` ... `nd_gt`; their bodies are not part of the
header, so the shape rule is modelled from the specification text. -/

/-- A shape: the extents of the axes, outermost first (an `int64_t` array). -/
abbrev Shape := List Int

/-- Modelled from the spec: the body of the broadcast check is missing from the
header. Rule for one axis that both operands have: the extents must be equal
or one of them is 1, and the result extent is the max; otherwise
`ND_E_INVALID_SHAPE`. -/
def broadcastExtent (x y : Int) : Except Int Int :=
  if x = y ∨ x = 1 ∨ y = 1 then Except.ok (max x y) else Except.error ND_E_INVALID_SHAPE

/-- Modelled from the spec: the body of the broadcast check is missing from the
header. Broadcast of two shapes given innermost axis first (that is, aligned
by the right): where one operand has no such axis the other extent is kept. -/
def broadcastAligned : List Int → List Int → Except Int (List Int)
  | [], ys => Except.ok ys
  | x :: xs, [] => Except.ok (x :: xs)
  | x :: xs, y :: ys =>
    match broadcastExtent x y with
    | Except.error e => Except.error e
    | Except.ok m =>
      match broadcastAligned xs ys with
      | Except.error e => Except.error e
      | Except.ok rest => Except.ok (m :: rest)

/-- Modelled from the spec: the body of the broadcast check is missing from the
header. Broadcast shape of two operand shapes, aligned by the right. -/
def broadcastShapes (a b : Shape) : Except Int Shape :=
  match broadcastAligned a.reverse b.reverse with
  | Except.ok r => Except.ok r.reverse
  | Except.error e => Except.error e

/-- The binary elementwise entry points declared in lines 110-116. -/
inductive BinaryOp where
  | nd_add
  | nd_sub
  | nd_mul
  | nd_div
  | nd_eq
  | nd_lt
  | nd_gt
  deriving DecidableEq, Repr

/-- Modelled from the spec: the bodies of `nd_add` ... `nd_gt` are missing from
the header. Step 2 of the shared preamble of every binary elementwise op:
the broadcast shape of the operand shapes, or `ND_E_INVALID_SHAPE`. -/
def binaryOpShape (_op : BinaryOp) (a b : Shape) : Except Int Shape :=
  broadcastShapes a b

/-- The extent of the axis `k` positions from the right end of a shape
(`k = 0` is the innermost axis); `none` when the shape has no such axis. -/
def extentFromRight (s : Shape) (k : Nat) : Option Int :=
  if k < s.length then s[s.length - 1 - k]? else none

/-- The per-axis compatibility condition of the broadcasting rule. -/
def axisCompatible : Option Int → Option Int → Prop
  | some x, some y => x = y ∨ x = 1 ∨ y = 1
  | _, _ => True

/-- The per-axis result extent of the broadcasting rule: the max of the
extents of the operands that have the axis. -/
def axisResult : Option Int → Option Int → Option Int
  | some x, some y => some (max x y)
  | some x, none => some x
  | none, some y => some y
  | none, none => none

/-! ## Handle table (spec sections 3 and 4.2)

The header only declares `nd_array_retain` / `nd_array_release`; the table is
modelled from the specification text. -/

/-- Modelled from the spec: the Array type is missing from the header. An Array
view: storage, dtype, shape, strides, byte offset, flags. -/
structure ArrayView where
  storage : Nat
  dtype : Nat
  shape : List Int
  strides : List Int
  byte_offset : Nat
  flags : Nat
  deriving DecidableEq, Repr

/-- Modelled from the spec: the handle table is missing from the header. A slot:
a `u32` generation, an optional occupant, and the per-slot reference count
adjusted by retain and release (the number of retains not yet released). -/
structure Slot where
  generation : Nat
  occupant : Option ArrayView
  refcount : Nat
  deriving DecidableEq, Repr

/-- Modelled from the spec: the handle table is missing from the header. A
growable vector of slots plus a free list of slot indices. -/
structure HandleTable where
  slots : List Slot
  free : List Nat
  deriving DecidableEq, Repr

/-- The lower 32 bits of a handle: the slot index. -/
def handleSlot (h : Nat) : Nat := h % 2 ^ 32

/-- The upper 32 bits of a 64-bit handle: the generation. -/
def handleGeneration (h : Nat) : Nat := h / 2 ^ 32 % 2 ^ 32

/-- The handle with a given generation and slot index. -/
def makeHandle (gen idx : Nat) : Nat := gen % 2 ^ 32 * 2 ^ 32 + idx % 2 ^ 32

/-- Modelled from the spec: the handle table is missing from the header. The
slot a handle names, when the handle is valid: the slot is occupied and its
current generation equals the generation of the handle. -/
def HandleTable.findSlot (t : HandleTable) (h : Nat) : Option Slot :=
  match t.slots[handleSlot h]? with
  | none => none
  | some s => if s.occupant.isSome ∧ s.generation = handleGeneration h then some s else none

/-- Modelled from the spec: the handle table is missing from the header. The
first step of every operation that takes a handle: consult the slot; a
generation mismatch or an unoccupied slot gives `ND_E_STALE_HANDLE`. -/
def HandleTable.resolve (t : HandleTable) (h : Nat) : Except Int ArrayView :=
  match t.findSlot h with
  | none => Except.error ND_E_STALE_HANDLE
  | some s =>
    match s.occupant with
    | none => Except.error ND_E_STALE_HANDLE
    | some a => Except.ok a

/-- Modelled from the spec: the handle table is missing from the header.
Register an Array: reuse a slot of the free list (keeping its generation) or
grow the vector; the new handle starts with no outstanding retains. -/
def HandleTable.register (t : HandleTable) (a : ArrayView) : Nat × HandleTable :=
  match t.free with
  | [] => (makeHandle 0 t.slots.length, ⟨t.slots ++ [⟨0, some a, 0⟩], []⟩)
  | i :: rest =>
    match t.slots[i]? with
    | none => (makeHandle 0 t.slots.length, ⟨t.slots ++ [⟨0, some a, 0⟩], rest⟩)
    | some s => (makeHandle s.generation i, ⟨t.slots.set i ⟨s.generation, some a, 0⟩, rest⟩)

/-- Modelled from the spec: the job type is missing from the header. The states
of a job. -/
inductive JobState where
  | Pending
  | Running
  | Succeeded
  | Failed
  | Cancelled
  | Consumed
  deriving DecidableEq, Repr

/-- Modelled from the spec: the job type is missing from the header. A job: id,
state, cancel flag, the retained input handles, the result handle held for
the caller (once there is one) and the status code of the kernel. -/
structure Job where
  id : Nat
  state : JobState
  cancel_flag : Bool
  inputs : List Nat
  result : Option Nat
  result_status : Int
  deriving DecidableEq, Repr

/-- The job registry. -/
abbrev JobRegistry := List Job

/-- The first job with a given id. -/
def findJob (reg : JobRegistry) (id : Nat) : Option Job :=
  reg.find? (fun j => j.id == id)

/-- Set the state of the jobs with a given id. -/
def setJobState (reg : JobRegistry) (id : Nat) (st : JobState) : JobRegistry :=
  reg.map (fun j => if j.id = id then { j with state := st } else j)

/-- The outcome of `nd_job_take_result`: status, the handle written to
`out_handle` (if any), and the registry afterwards. -/
structure TakeResult where
  status : Int
  out_handle : Option Nat
  registry : JobRegistry
  deriving DecidableEq, Repr

/-- Modelled from the spec: the body of `nd_job_take_result` is missing from the
header. Fails `ND_E_INVALID_ARG` unless the state is Succeeded; otherwise
moves the job to Consumed and transfers the result handle to the caller. -/
def nd_job_take_result (reg : JobRegistry) (id : Nat) : TakeResult :=
  match findJob reg id with
  | none => ⟨ND_E_INVALID_ARG, none, reg⟩
  | some j =>
    if j.state = JobState.Succeeded then
      ⟨ND_OK, j.result, setJobState reg id JobState.Consumed⟩
    else
      ⟨ND_E_INVALID_ARG, none, reg⟩

/-- Modelled from the spec: the body of `nd_job_cancel` is missing from the
header. Sets the cancel flag and, if the job is Pending, moves it to
Cancelled immediately. -/
def nd_job_cancel (reg : JobRegistry) (id : Nat) : Int × JobRegistry :=
  match findJob reg id with
  | none => (ND_E_INVALID_ARG, reg)
  | some _ =>
    (ND_OK, reg.map (fun j =>
      if j.id = id then
        { j with cancel_flag := true,
                 state := if j.state = JobState.Pending then JobState.Cancelled else j.state }
      else j))

/-! ## Example inputs -/

/-- An example registry: job 7 has succeeded with result handle 42, job 8 is
pending, job 9 was cancelled. -/
def exampleRegistry : JobRegistry :=
  [ ⟨7, JobState.Succeeded, false, [1, 2], some 42, ND_OK⟩,
    ⟨8, JobState.Pending, false, [1, 2], none, ND_OK⟩,
    ⟨9, JobState.Cancelled, true, [1, 2], none, ND_OK⟩ ]

/-! ## The header: constants, types and declarations -/

/-- C1: the dtype enum of the header defines exactly the three codes F32 = 1,
I32 = 3 and F64 = 4, and no dtype has code 2. -/
theorem dtype_codes_exact :
    dtypeEnum = [("ND_DTYPE_F32", 1), ("ND_DTYPE_I32", 3), ("ND_DTYPE_F64", 4)] ∧
    ND_DTYPE_F32 = 1 ∧ ND_DTYPE_I32 = 3 ∧ ND_DTYPE_F64 = 4 ∧
    dtypeEnum.length = 3 ∧
    (∀ e ∈ dtypeEnum, e.2 ≠ 2) ∧
    (∀ c : Nat, c ∈ dtypeEnum.map Prod.snd ↔ c = 1 ∨ c = 3 ∨ c = 4) := by
  refine ⟨by decide, by decide, by decide, by decide, by decide, by decide, ?_⟩
  intro c
  simp [dtypeEnum, ND_DTYPE_F32, ND_DTYPE_I32, ND_DTYPE_F64]

/-- C2 (as stated) fails: `ND_E_INVALID_ARG` is an error code of the header and
its value as an `nd_status_t` is 1, which is not negative; so not every
`ND_E_*` code is negative. -/
theorem error_codes_negative_fails :
    ("ND_E_INVALID_ARG", ND_E_INVALID_ARG) ∈ errorCodes ∧
    toInt32 ND_E_INVALID_ARG = 1 ∧
    ¬ (toInt32 ND_E_INVALID_ARG < 0) ∧
    ¬ (∀ e ∈ errorCodes, toInt32 e.2 < 0) := by
  decide

/-- C2 (amended): `ND_OK` is 0 and every `ND_E_*` error code of the header is a
positive value that the signed 32-bit status type holds unchanged: the ten
codes are 1 to 9 in source order and 255 for `ND_E_INTERNAL`; none of them is
negative. -/
theorem error_codes_positive :
    ND_OK = 0 ∧ toInt32 ND_OK = 0 ∧
    (nd_status_t.resolve = CType.int32_t) ∧
    errorCodes =
      [ ("ND_E_INVALID_ARG", 1), ("ND_E_INVALID_DTYPE", 2), ("ND_E_INVALID_SHAPE", 3),
        ("ND_E_INVALID_STRIDES", 4), ("ND_E_INVALID_ALIGNMENT", 5),
        ("ND_E_STALE_HANDLE", 6), ("ND_E_OOM", 7), ("ND_E_NOT_CONTIGUOUS", 8),
        ("ND_E_NOT_IMPLEMENTED", 9), ("ND_E_INTERNAL", 255) ] ∧
    errorCodes.map Prod.snd = [1, 2, 3, 4, 5, 6, 7, 8, 9, 255] ∧
    errorCodes.map (fun e => toInt32 e.2) = [1, 2, 3, 4, 5, 6, 7, 8, 9, 255] ∧
    (∀ e ∈ errorCodes, 0 < e.2 ∧ e.2 ≤ 255 ∧ toInt32 e.2 = e.2) ∧
    (∀ e ∈ errorCodes, ((1 ≤ e.2 ∧ e.2 ≤ 9) ∨ (e.1 = "ND_E_INTERNAL" ∧ e.2 = 255))) ∧
    (∀ e ∈ errorCodes, ¬ (toInt32 e.2 < 0)) := by
  decide

/-- C3: the `ND_E_*` enumerators of the header are exactly the ten error codes
INVALID_ARG, INVALID_DTYPE, INVALID_SHAPE, INVALID_STRIDES, INVALID_ALIGNMENT,
STALE_HANDLE, OOM, NOT_CONTIGUOUS, NOT_IMPLEMENTED and INTERNAL, and the only
other enumerator of the status enum is `ND_OK`. -/
theorem error_codes_exactly_ten :
    errorCodes.map Prod.fst =
      [ "ND_E_INVALID_ARG", "ND_E_INVALID_DTYPE", "ND_E_INVALID_SHAPE",
        "ND_E_INVALID_STRIDES", "ND_E_INVALID_ALIGNMENT", "ND_E_STALE_HANDLE",
        "ND_E_OOM", "ND_E_NOT_CONTIGUOUS", "ND_E_NOT_IMPLEMENTED", "ND_E_INTERNAL" ] ∧
    errorCodes.length = 10 ∧
    (statusEnum.filter (fun e => !isErrorName e.1)).map Prod.fst = ["ND_OK"] ∧
    (∀ e ∈ dtypeEnum ++ boolEnum ++ flagEnum, isErrorName e.1 = false) := by
  decide

/-- C4 (as stated) fails: `nd_abi_version` is an `ND_API` declaration of the
header whose return type is `uint32_t`, not `nd_status_t`. -/
theorem not_every_entry_point_returns_status :
    nd_abi_version_decl ∈ ndApiDecls ∧
    nd_abi_version_decl.ret = CType.uint32_t ∧
    nd_abi_version_decl.ret ≠ nd_status_t ∧
    nd_abi_version_decl.ret.resolve ≠ nd_status_t.resolve ∧
    ¬ (∀ d ∈ ndApiDecls, d.ret = nd_status_t) := by
  decide

/-- C4 (amended): of the 42 `ND_API` declarations, exactly four do not return
`nd_status_t`: `nd_abi_version` (`uint32_t`), `nd_build_version_cstr`
(`const char*`), `nd_array_data_ptr` (`uint8_t*`) and `nd_simd_width_f64`
(`uint64_t`); every other declaration returns `nd_status_t`. -/
theorem entry_points_return_status_except_four :
    ndApiDecls.length = 42 ∧
    (ndApiDecls.filter (fun d => d.ret != nd_status_t)).map (fun d => (d.name, d.ret)) =
      [ ("nd_abi_version", CType.uint32_t),
        ("nd_build_version_cstr", CType.constPtr CType.char),
        ("nd_array_data_ptr", CType.ptr CType.uint8_t),
        ("nd_simd_width_f64", CType.uint64_t) ] ∧
    (∀ d ∈ ndApiDecls,
      d.name ∉ ["nd_abi_version", "nd_build_version_cstr", "nd_array_data_ptr",
        "nd_simd_width_f64"] →
      d.ret = nd_status_t ∧ d.ret.resolve = CType.int32_t) := by
  decide

/-- C5: `ND_FLAG_READONLY` is 1 (bit 0), it is the only enumerator of the flag
enum, the flags word is 32 bits wide, and for every 32-bit flags value `f`
the test `f & ND_FLAG_READONLY` is non-zero iff bit 0 of `f` is set, iff `f`
is odd. -/
theorem readonly_flag_is_bit_zero :
    ND_FLAG_READONLY = 1 ∧ ND_FLAG_READONLY = 2 ^ 0 ∧
    flagEnum = [("ND_FLAG_READONLY", 1)] ∧
    nd_flags_t.resolve.intBits = some 32 ∧
    (∀ f : Nat, f < 2 ^ 32 →
      ((f &&& ND_FLAG_READONLY ≠ 0 ↔ f.testBit 0 = true) ∧
       (f &&& ND_FLAG_READONLY ≠ 0 ↔ f % 2 = 1))) := by
  refine ⟨by decide, by decide, by decide, by decide, ?_⟩
  intro f _
  have h1 : ND_FLAG_READONLY = 1 := by decide
  rw [h1, Nat.and_one_is_mod, Nat.testBit_zero]
  constructor
  · rcases Nat.mod_two_eq_zero_or_one f with h | h <;> simp [h]
  · rcases Nat.mod_two_eq_zero_or_one f with h | h <;> simp [h]

/-- C6: `nd_status_t` is a signed 32-bit integer, `nd_handle_t` is a 64-bit
integer, and each of `nd_array_alloc`, `nd_array_from_host_copy`,
`nd_array_reshape`, `nd_array_transpose`, `nd_array_slice` takes its shape,
strides, permutation and slice-bound arrays as `const int64_t*` together
with a `uint8_t ndim`; these five are exactly the declarations that take
such an array. -/
theorem abi_types :
    nd_status_t.resolve = CType.int32_t ∧
    nd_status_t.resolve.intBits = some 32 ∧ nd_status_t.resolve.isSigned = some true ∧
    nd_handle_t.resolve = CType.uint64_t ∧ nd_handle_t.resolve.intBits = some 64 ∧
    CType.int64_t.intBits = some 64 ∧ CType.uint8_t.intBits = some 8 ∧
    (∀ d ∈ extentArrayDecls,
      d ∈ ndApiDecls ∧
      d.param "ndim" = some ⟨CType.uint8_t, "ndim"⟩ ∧
      (∃ p ∈ d.params, p.name ∈ extentArrayParams) ∧
      (∀ p ∈ d.params, p.name ∈ extentArrayParams → p.ty = CType.constPtr CType.int64_t)) ∧
    extentArrayDecls.map (fun d => d.name) =
      [ "nd_array_alloc", "nd_array_from_host_copy", "nd_array_reshape",
        "nd_array_transpose", "nd_array_slice" ] ∧
    ndApiDecls.filter takesInt64Array = extentArrayDecls ∧
    (∀ d ∈ ndApiDecls, ∀ p ∈ d.params,
      (p.name ∈ extentArrayParams ↔ p.ty = CType.constPtr CType.int64_t)) := by
  decide

/-- C10: the eleven status codes of the header are pairwise distinct and
`ND_OK` is the only one equal to 0: a defined status code is 0 iff it is
`ND_OK`. -/
theorem status_codes_distinct :
    statusEnum.length = 11 ∧
    (statusEnum.map Prod.snd).Nodup ∧
    (statusEnum.map Prod.fst).Nodup ∧
    ((statusEnum.map Prod.snd).map toInt32).Nodup ∧
    (∀ e ∈ statusEnum, (e.2 = 0 ↔ e.1 = "ND_OK")) ∧
    (∀ e ∈ statusEnum, ∀ e' ∈ statusEnum, e.2 = e'.2 → e.1 = e'.1) := by
  decide

/-! ## Broadcasting -/

theorem broadcastExtent_cases (x y : Int) :
    ((x = y ∨ x = 1 ∨ y = 1) ∧ broadcastExtent x y = Except.ok (max x y)) ∨
    (¬ (x = y ∨ x = 1 ∨ y = 1) ∧ broadcastExtent x y = Except.error ND_E_INVALID_SHAPE) := by
  unfold broadcastExtent
  by_cases h : (x = y ∨ x = 1 ∨ y = 1)
  · left; exact ⟨h, if_pos h⟩
  · right; exact ⟨h, if_neg h⟩

theorem axisResult_none_left (o : Option Int) : axisResult none o = o := by
  cases o <;> rfl

theorem axisResult_none_right (o : Option Int) : axisResult o none = o := by
  cases o <;> rfl

theorem axisCompatible_none_left (o : Option Int) : axisCompatible none o := by
  cases o <;> exact True.intro

theorem axisCompatible_none_right (o : Option Int) : axisCompatible o none := by
  cases o <;> exact True.intro

/-- Every failure of the aligned broadcast is `ND_E_INVALID_SHAPE`. -/
theorem broadcastAligned_error (xs ys : List Int) (e : Int)
    (h : broadcastAligned xs ys = Except.error e) : e = ND_E_INVALID_SHAPE := by
  induction xs generalizing ys with
  | nil => simp [broadcastAligned] at h
  | cons x xs ih =>
    cases ys with
    | nil => simp [broadcastAligned] at h
    | cons y ys =>
      simp only [broadcastAligned] at h
      rcases broadcastExtent_cases x y with ⟨_, he⟩ | ⟨_, he⟩
      · rw [he] at h
        cases hr : broadcastAligned xs ys with
        | error e' =>
          rw [hr] at h
          simp only [Except.error.injEq] at h
          subst h
          exact ih ys hr
        | ok rest => rw [hr] at h; simp at h
      · rw [he] at h
        simp only [Except.error.injEq] at h
        exact h.symm

/-- A successful aligned broadcast: every axis is compatible and every result
extent is the per-axis result. -/
theorem broadcastAligned_ok (xs ys r : List Int)
    (h : broadcastAligned xs ys = Except.ok r) :
    (∀ k : Nat, axisCompatible xs[k]? ys[k]?) ∧ (∀ k : Nat, r[k]? = axisResult xs[k]? ys[k]?) := by
  induction xs generalizing ys r with
  | nil =>
    simp only [broadcastAligned, Except.ok.injEq] at h
    subst h
    exact ⟨fun k => by simpa using axisCompatible_none_left _,
      fun k => by simpa using (axisResult_none_left _).symm⟩
  | cons x xs ih =>
    cases ys with
    | nil =>
      simp only [broadcastAligned, Except.ok.injEq] at h
      subst h
      exact ⟨fun k => by simpa using axisCompatible_none_right _,
        fun k => by simpa using (axisResult_none_right _).symm⟩
    | cons y ys =>
      simp only [broadcastAligned] at h
      rcases broadcastExtent_cases x y with ⟨hc, he⟩ | ⟨_, he⟩
      · rw [he] at h
        cases hr : broadcastAligned xs ys with
        | error e' => rw [hr] at h; simp at h
        | ok rest =>
          rw [hr] at h
          simp only [Except.ok.injEq] at h
          subst h
          obtain ⟨h1, h2⟩ := ih ys rest hr
          refine ⟨fun k => ?_, fun k => ?_⟩
          · cases k with
            | zero => simpa [axisCompatible] using hc
            | succ k => simpa using h1 k
          · cases k with
            | zero => simp [axisResult]
            | succ k => simpa using h2 k
      · rw [he] at h; simp at h

/-- When every axis is compatible the aligned broadcast succeeds. -/
theorem broadcastAligned_complete (xs ys : List Int)
    (h : ∀ k : Nat, axisCompatible xs[k]? ys[k]?) : ∃ r, broadcastAligned xs ys = Except.ok r := by
  induction xs generalizing ys with
  | nil => exact ⟨ys, by simp [broadcastAligned]⟩
  | cons x xs ih =>
    cases ys with
    | nil => exact ⟨x :: xs, by simp [broadcastAligned]⟩
    | cons y ys =>
      have h0 : x = y ∨ x = 1 ∨ y = 1 := by simpa [axisCompatible] using h 0
      obtain ⟨rest, hrest⟩ := ih ys (fun k => by simpa using h (k + 1))
      refine ⟨max x y :: rest, ?_⟩
      simp only [broadcastAligned]
      rcases broadcastExtent_cases x y with ⟨_, he⟩ | ⟨hc, _⟩
      · rw [he, hrest]
      · exact absurd h0 hc

theorem extentFromRight_eq (s : Shape) (k : Nat) : extentFromRight s k = s.reverse[k]? := by
  unfold extentFromRight
  by_cases hk : k < s.length
  · rw [if_pos hk, List.getElem?_reverse hk]
  · rw [if_neg hk]
    symm
    apply List.getElem?_eq_none
    simpa using Nat.le_of_not_lt hk

theorem broadcastAligned_length (xs ys r : List Int)
    (h : broadcastAligned xs ys = Except.ok r) : r.length = max xs.length ys.length := by
  induction xs generalizing ys r with
  | nil =>
    simp only [broadcastAligned, Except.ok.injEq] at h
    subst h
    simp
  | cons x xs ih =>
    cases ys with
    | nil =>
      simp only [broadcastAligned, Except.ok.injEq] at h
      subst h
      simp
    | cons y ys =>
      simp only [broadcastAligned] at h
      rcases broadcastExtent_cases x y with ⟨_, he⟩ | ⟨_, he⟩
      · rw [he] at h
        cases hr : broadcastAligned xs ys with
        | error e' => rw [hr] at h; simp at h
        | ok rest =>
          rw [hr] at h
          simp only [Except.ok.injEq] at h
          subst h
          have := ih ys rest hr
          simp only [List.length_cons, this]
          omega
      · rw [he] at h; simp at h

theorem broadcastShapes_ok_iff (a b out : Shape) :
    broadcastShapes a b = Except.ok out ↔
      broadcastAligned a.reverse b.reverse = Except.ok out.reverse := by
  unfold broadcastShapes
  cases hr : broadcastAligned a.reverse b.reverse with
  | error e => simp
  | ok r =>
    simp only [Except.ok.injEq]
    constructor
    · intro h; subst h; simp
    · intro h; rw [h]; simp

/-- C7: for each of the seven binary elementwise ops and every pair of operand
shapes aligned from the right, the shape check succeeds iff at every axis the
two extents are equal, or one of them is 1, or one operand has no such axis;
on success the output has the rank of the longer operand and its extent at
each axis is the max of the extents of the operands that have the axis;
otherwise the check fails with `ND_E_INVALID_SHAPE`. Shapes [2,3] and [3]
broadcast to [2,3]. -/
theorem broadcast_law (op : BinaryOp) (a b : Shape) :
    ((∃ out, binaryOpShape op a b = Except.ok out) ↔
      ∀ k : Nat, axisCompatible (extentFromRight a k) (extentFromRight b k)) ∧
    (∀ out, binaryOpShape op a b = Except.ok out →
      out.length = max a.length b.length ∧
      ∀ k : Nat, extentFromRight out k =
        axisResult (extentFromRight a k) (extentFromRight b k)) ∧
    ((¬ ∀ k : Nat, axisCompatible (extentFromRight a k) (extentFromRight b k)) →
      binaryOpShape op a b = Except.error ND_E_INVALID_SHAPE) ∧
    binaryOpShape op [2, 3] [3] = Except.ok [2, 3] := by
  have hiff : (∃ out, binaryOpShape op a b = Except.ok out) ↔
      ∀ k : Nat, axisCompatible (extentFromRight a k) (extentFromRight b k) := by
    constructor
    · rintro ⟨out, hout⟩ k
      have h1 := (broadcastShapes_ok_iff a b out).1 hout
      rw [extentFromRight_eq, extentFromRight_eq]
      exact (broadcastAligned_ok _ _ _ h1).1 k
    · intro h
      obtain ⟨r, hr⟩ := broadcastAligned_complete a.reverse b.reverse
        (fun k => by simpa [extentFromRight_eq] using h k)
      exact ⟨r.reverse, (broadcastShapes_ok_iff a b r.reverse).2 (by simpa using hr)⟩
  refine ⟨hiff, ?_, ?_, ?_⟩
  · intro out hout
    have h1 := (broadcastShapes_ok_iff a b out).1 hout
    constructor
    · simpa using broadcastAligned_length _ _ _ h1
    · intro k
      rw [extentFromRight_eq, extentFromRight_eq, extentFromRight_eq]
      exact (broadcastAligned_ok _ _ _ h1).2 k
  · intro hn
    cases hr : binaryOpShape op a b with
    | ok out => exact absurd (hiff.1 ⟨out, hr⟩) hn
    | error e =>
      have he : e = ND_E_INVALID_SHAPE := by
        unfold binaryOpShape broadcastShapes at hr
        cases hq : broadcastAligned a.reverse b.reverse with
        | error e' =>
          rw [hq] at hr
          simp only [Except.error.injEq] at hr
          subst hr
          exact broadcastAligned_error _ _ _ hq
        | ok r => rw [hq] at hr; simp at hr
      rw [he]
  · cases op <;> rfl

/-! ## Handle table -/

/-- Registering an Array in a table with an empty free list and fewer than 2^32
slots gives a valid handle with no outstanding retains that names that
Array. -/
theorem register_fresh (t : HandleTable) (a : ArrayView) (hfree : t.free = [])
    (hlen : t.slots.length < 2 ^ 32) :
    (t.register a).2.findSlot (t.register a).1 = some ⟨0, some a, 0⟩ ∧
    (t.register a).2.resolve (t.register a).1 = Except.ok a := by
  have hs : handleSlot (makeHandle 0 t.slots.length) = t.slots.length := by
    unfold handleSlot makeHandle
    omega
  have hg : handleGeneration (makeHandle 0 t.slots.length) = 0 := by
    unfold handleGeneration makeHandle
    omega
  have hf : (t.register a).2.findSlot (t.register a).1 = some ⟨0, some a, 0⟩ := by
    unfold HandleTable.register
    rw [hfree]
    unfold HandleTable.findSlot
    simp [hs, hg]
  refine ⟨hf, ?_⟩
  unfold HandleTable.resolve
  rw [hf]

theorem findJob_map_update (reg : JobRegistry) (id : Nat) (f : Job → Job)
    (hf : ∀ j, (f j).id = j.id) :
    findJob (reg.map (fun j => if j.id = id then f j else j)) id = (findJob reg id).map f := by
  induction reg with
  | nil => rfl
  | cons j rest ih =>
    unfold findJob at *
    by_cases hj : j.id = id
    · have h1 : ((f j).id == id) = true := by simp [hf, hj]
      have h2 : (j.id == id) = true := by simp [hj]
      simp only [List.map_cons, if_pos hj, List.find?_cons, h1, h2, Option.map_some']
    · have h2 : (j.id == id) = false := by simpa using hj
      simp only [List.map_cons, if_neg hj, List.find?_cons, h2]
      exact ih

theorem findJob_map_update_ne (reg : JobRegistry) (id id' : Nat) (f : Job → Job)
    (hf : ∀ j, (f j).id = j.id) (hne : id' ≠ id) :
    findJob (reg.map (fun j => if j.id = id then f j else j)) id' = findJob reg id' := by
  induction reg with
  | nil => rfl
  | cons j rest ih =>
    unfold findJob at *
    by_cases hj : j.id = id
    · have h1 : ((f j).id == id') = false := by
        simp only [hf, hj, beq_eq_false_iff_ne, ne_eq]
        exact fun h => hne h.symm
      have h2 : (j.id == id') = false := by
        simp only [hj, beq_eq_false_iff_ne, ne_eq]
        exact fun h => hne h.symm
      simp only [List.map_cons, if_pos hj, List.find?_cons, h1, h2]
      exact ih
    · simp only [List.map_cons, if_neg hj, List.find?_cons]
      cases hb : (j.id == id')
      · exact ih
      · rfl

theorem findJob_setJobState (reg : JobRegistry) (id : Nat) (st : JobState) :
    findJob (setJobState reg id st) id =
      (findJob reg id).map (fun j => ({ j with state := st } : Job)) :=
  findJob_map_update reg id (fun j => ({ j with state := st } : Job)) (fun _ => rfl)

theorem findJob_setJobState_ne (reg : JobRegistry) (id id' : Nat) (st : JobState)
    (hne : id' ≠ id) : findJob (setJobState reg id st) id' = findJob reg id' :=
  findJob_map_update_ne reg id id' (fun j => ({ j with state := st } : Job)) (fun _ => rfl) hne

theorem findJob_cancel (reg : JobRegistry) (id : Nat) :
    findJob (nd_job_cancel reg id).2 id =
      (findJob reg id).map (fun j => ({ j with
        cancel_flag := true,
        state := if j.state = JobState.Pending then JobState.Cancelled else j.state } : Job)) := by
  unfold nd_job_cancel
  cases hf : findJob reg id with
  | none => simp [hf]
  | some j0 =>
    dsimp only
    rw [findJob_map_update reg id (fun j => ({ j with
        cancel_flag := true,
        state := if j.state = JobState.Pending then JobState.Cancelled else j.state } : Job))
      (fun _ => rfl), hf]

/-- C9: `nd_job_take_result` succeeds iff the job exists and its state is
Succeeded; otherwise it fails with `ND_E_INVALID_ARG`, hands out no handle
and leaves the registry unchanged. On success it hands the result handle of
the job to the caller, moves the job to Consumed and leaves the other jobs
alone. Hence a second `take_result` on the same id always fails with
`ND_E_INVALID_ARG`, and so does `take_result` on a Cancelled job, also one
cancelled while Pending. -/
theorem take_result_law (reg : JobRegistry) (id : Nat) :
    ((nd_job_take_result reg id).status = ND_OK ↔
      ∃ j, findJob reg id = some j ∧ j.state = JobState.Succeeded) ∧
    ((¬ ∃ j, findJob reg id = some j ∧ j.state = JobState.Succeeded) →
      nd_job_take_result reg id = ⟨ND_E_INVALID_ARG, none, reg⟩) ∧
    (∀ j, findJob reg id = some j → j.state = JobState.Succeeded →
      (nd_job_take_result reg id).status = ND_OK ∧
      (nd_job_take_result reg id).out_handle = j.result ∧
      findJob (nd_job_take_result reg id).registry id =
        some ⟨j.id, JobState.Consumed, j.cancel_flag, j.inputs, j.result, j.result_status⟩ ∧
      ∀ id', id' ≠ id → findJob (nd_job_take_result reg id).registry id' = findJob reg id') ∧
    (nd_job_take_result (nd_job_take_result reg id).registry id).status = ND_E_INVALID_ARG ∧
    (∀ j, findJob reg id = some j → j.state = JobState.Cancelled →
      (nd_job_take_result reg id).status = ND_E_INVALID_ARG) ∧
    (∀ j, findJob reg id = some j → j.state = JobState.Pending →
      (nd_job_cancel reg id).1 = ND_OK ∧
      (findJob (nd_job_cancel reg id).2 id).map (fun j' => j'.state) =
        some JobState.Cancelled ∧
      (nd_job_take_result (nd_job_cancel reg id).2 id).status = ND_E_INVALID_ARG) := by
  have hfail : ∀ (r : JobRegistry),
      (¬ ∃ j, findJob r id = some j ∧ j.state = JobState.Succeeded) →
      nd_job_take_result r id = ⟨ND_E_INVALID_ARG, none, r⟩ := by
    intro r hn
    unfold nd_job_take_result
    cases hf : findJob r id with
    | none => rfl
    | some j =>
      dsimp only
      rw [if_neg (fun hs => hn ⟨j, hf, hs⟩)]
  have hok : ∀ j, findJob reg id = some j → j.state = JobState.Succeeded →
      nd_job_take_result reg id = ⟨ND_OK, j.result, setJobState reg id JobState.Consumed⟩ := by
    intro j hf hs
    unfold nd_job_take_result
    rw [hf]
    dsimp only
    rw [if_pos hs]
  refine ⟨?_, hfail reg, ?_, ?_, ?_, ?_⟩
  · constructor
    · intro hst
      by_contra hn
      rw [hfail reg hn] at hst
      have hne : ND_E_INVALID_ARG ≠ ND_OK := by decide
      exact hne hst
    · rintro ⟨j, hf, hs⟩
      rw [hok j hf hs]
  · intro j hf hs
    rw [hok j hf hs]
    refine ⟨rfl, rfl, ?_, ?_⟩
    · show findJob (setJobState reg id JobState.Consumed) id = _
      rw [findJob_setJobState, hf]
      rfl
    · intro id' hne
      exact findJob_setJobState_ne reg id id' _ hne
  · by_cases hex : ∃ j, findJob reg id = some j ∧ j.state = JobState.Succeeded
    · obtain ⟨j, hf, hs⟩ := hex
      rw [hok j hf hs]
      show (nd_job_take_result (setJobState reg id JobState.Consumed) id).status = _
      rw [hfail]
      rintro ⟨j', hf', hs'⟩
      rw [findJob_setJobState, hf] at hf'
      simp only [Option.map_some', Option.some.injEq] at hf'
      subst hf'
      cases hs'
    · rw [hfail reg hex]
      show (nd_job_take_result reg id).status = _
      rw [hfail reg hex]
  · intro j hf hs
    rw [hfail reg]
    rintro ⟨j', hf', hs'⟩
    rw [hf] at hf'
    cases hf'
    rw [hs] at hs'
    cases hs'
  · intro j hf hs
    have hc := findJob_cancel reg id
    rw [hf] at hc
    simp only [Option.map_some', hs, if_true] at hc
    refine ⟨?_, ?_, ?_⟩
    · unfold nd_job_cancel
      rw [hf]
    · rw [hc]
      rfl
    · rw [hfail]
      rintro ⟨j', hf', hs'⟩
      rw [hc] at hf'
      cases hf'
      cases hs'

/-- C9 at a concrete registry: job 7 has succeeded with result handle 42; the
first `take_result` hands out 42 and consumes the job, the second fails; job
9 is cancelled and job 8 is cancelled while pending, and `take_result` fails
on both. -/
theorem take_result_law_witness :
    findJob exampleRegistry 7 =
      some ⟨7, JobState.Succeeded, false, [1, 2], some 42, ND_OK⟩ ∧
    (nd_job_take_result exampleRegistry 7).status = ND_OK ∧
    (nd_job_take_result exampleRegistry 7).out_handle = some 42 ∧
    (nd_job_take_result (nd_job_take_result exampleRegistry 7).registry 7).status =
      ND_E_INVALID_ARG ∧
    (nd_job_take_result exampleRegistry 9).status = ND_E_INVALID_ARG ∧
    (nd_job_take_result (nd_job_cancel exampleRegistry 8).2 8).status = ND_E_INVALID_ARG :=
  have h7 := (take_result_law exampleRegistry 7).2.2.1
    ⟨7, JobState.Succeeded, false, [1, 2], some 42, ND_OK⟩ (by decide) (by decide)
  ⟨by decide, h7.1, h7.2.1,
    (take_result_law exampleRegistry 7).2.2.2.1,
    (take_result_law exampleRegistry 9).2.2.2.2.1
      ⟨9, JobState.Cancelled, true, [1, 2], none, ND_OK⟩ (by decide) (by decide),
    ((take_result_law exampleRegistry 8).2.2.2.2.2
      ⟨8, JobState.Pending, false, [1, 2], none, ND_OK⟩ (by decide) (by decide)).2.2⟩

end NdArray
